import Mathlib

/-
Shallow embedding of the dsorm SQL fragment composition engine
(src/dsorm/dsorm.py) and proofs about its rendering behaviour.

Modelling conventions:
  - Python dicts are insertion-ordered association lists with unique keys.
  - Python `None` is `Option.none`; truthiness of `None`/empty containers is
    made explicit at each use site.
  - Fallible Python code (a dict lookup that can raise KeyError) is embedded
    in `Except PyError`.
  - Python strings are `String`; f-string interpolation is string append.
    Appends are written right-associated, which is observationally identical
    (string concatenation is associative) and matches the flat text Python
    produces.
-/

namespace Dsorm

/-- Scalar Python values that flow through quoting and predicates.
`float` carries the decimal text of the float (IEEE formatting is not
modelled; only the kind dispatch matters here). -/
inductive PyVal where
  | str (s : String)
  | int (n : Int)
  | float (text : String)
  | bool (b : Bool)
deriving DecidableEq

/-- The `isinstance(v, str)` test used by `Where.sql`. -/
def PyVal.isStr : PyVal → Bool
  | .str _ => true
  | _ => false

/-- Failure kinds. `keyError` is Python's `KeyError`, raised by a dict
lookup miss: it is the only failure the source's quoting and table lookup
can raise. The remaining constructors are the typed failures named in the
specification's error taxonomy; no exception class of those names exists in
the source — they are declared here so that statements about them can be
expressed and compared with what the code actually raises. -/
inductive PyError where
  | keyError
  | unsupportedLiteralKind
  | unknownTable
  | malformedForeignKey
deriving DecidableEq

/-- `ds_quote` (dsorm.py:119-121):
`cast = {str: lambda x: f"'{x}'", int: str, float: str}[type(o)]`.
A value whose exact type is not a key of the dict (e.g. `bool`) raises
`KeyError` from the lookup. -/
def ds_quote : PyVal → Except PyError String
  | .str s => .ok ("'" ++ (s ++ "'"))
  | .int n => .ok (toString n)
  | .float text => .ok text
  | .bool _ => .error .keyError

/-- `Column` dataclass (dsorm.py:250-285). The `_table` back-reference is
modelled by the owning table's `name` field (the only part of the table the
column reads, in `Column.identifier`); `none` means not attached. -/
structure Column where
  name : String
  sqltype : String
  unique : Bool
  nullable : Bool
  pkey : Bool
  table : Option (Option String)
deriving DecidableEq

/-- `Column.identifier` (dsorm.py:277-282): qualified when the back
reference exists and the table's name is truthy (not `None`, not `""`). -/
def Column.identifier (c : Column) : String :=
  match c.table with
  | some (some tn) => if tn = "" then c.name else tn ++ ("." ++ c.name)
  | _ => c.name

/-- `Table` dataclass fields (dsorm.py:305-310). Constraints only flow
through `Table.sql` (not exercised here) as pre-rendered text. -/
structure Table where
  column : List Column
  name : Option String
  constraints : List String
  schema : String
deriving DecidableEq

/-- Python `str(None) = "None"`; rendering an optional name inside an
f-string. -/
def pyOptStr : Option String → String
  | some s => s
  | none => "None"

/-- `Table.__post_init__` (dsorm.py:312-315): constructing a table sets
each column's back-reference to the table. -/
def Table.make (column : List Column) (name : Option String)
    (constraints : List String) (schema : String) : Table :=
  ⟨column.map (fun c => ⟨c.name, c.sqltype, c.unique, c.nullable, c.pkey, some name⟩),
   name, constraints, schema⟩

/-- `Table.identifier` (dsorm.py:331-336). (For a `None` name Python would
fail on string concatenation; no claim exercises that corner.) -/
def Table.identifier (t : Table) : String :=
  if t.schema = "" then pyOptStr t.name else t.schema ++ ("." ++ pyOptStr t.name)

/-- `Table.pkey` (dsorm.py:320-321). -/
def Table.pkey (t : Table) : List Column :=
  t.column.filter (fun c => c.pkey)

/-- A single `SQLFragment`: a raw string, a `Column`, or a `Table`
(dsorm.py:75). Numeric literals never flow through the fragment paths the
claims exercise. -/
inductive Frag where
  | str (s : String)
  | col (c : Column)
  | tbl (t : Table)
deriving DecidableEq

/-- `Fragments = Union[Iterable, SQLFragment]` (dsorm.py:76): one fragment
or a Python list of fragments. A Python `str` is a `.frag (.str s)` value:
it is a single fragment, even though `str` is also `Iterable`. -/
inductive Fragments where
  | frag (x : Frag)
  | flist (fs : List Frag)
deriving DecidableEq

/-- `ds_name` (dsorm.py:84-91): objects expose `identifier`/`name`
depending on `qualify`; raw values pass through. -/
def ds_name (o : Frag) (qualify : Bool) : String :=
  match o with
  | .str s => s
  | .col c => if qualify then c.identifier else c.name
  | .tbl t => if qualify then t.identifier else pyOptStr t.name

/-- `ds_qname = partial(ds_name, qualify=True)` (dsorm.py:94). -/
def ds_qname (o : Frag) : String :=
  ds_name o true

/-- `joinmap` (dsorm.py:104-111):
`if isinstance(o, Iterable) and not isinstance(o, str): seperator.join(map(f, o))
 else: f(o)`.
A list takes the join branch; a single fragment — including a string, which
the `not isinstance(o, str)` guard excludes from the iterable branch — gets
`f` applied to it whole. -/
def joinmap (o : Fragments) (f : Frag → String) (seperator : String) : String :=
  match o with
  | .flist fs => String.intercalate seperator (fs.map f)
  | .frag x => f x

/-- Python `str()` of a fragment: strings are themselves; `Column.__repr__`
returns the identifier (dsorm.py:284-285); `Table.__repr__` is
`f"{identifier}({joinmap(column)})"` (dsorm.py:338-339). -/
def pyStrFrag : Frag → String
  | .str s => s
  | .col c => c.identifier
  | .tbl t => t.identifier ++ ("(" ++ (joinmap (.flist (t.column.map .col)) (fun o => ds_name o false) ", " ++ ")"))

/-- dsorm.py:80. -/
def LINE_AND_SEPERATOR : String := "\n\tAND "

/-- `Where.Comparison` dataclass (dsorm.py:172-176). The operator is the
literal operator text, default `"="`. -/
structure Where.Comparison where
  column : Frag
  target : PyVal
  operator : String
deriving DecidableEq

/-- `Where.Comparison.sql` (dsorm.py:178-179):
`f"{self.column} {self.operator} {ds_quote(self.target)}"`. The f-string
interpolates `str(column)` unqualified; `ds_quote` can raise. -/
def Where.Comparison.sql (c : Where.Comparison) : Except PyError String := do
  let q ← ds_quote c.target
  return pyStrFrag c.column ++ (" " ++ (c.operator ++ (" " ++ q)))

/-- `seperator.join(map(ds_sql, clause_list))` forces every element's
renderer; an exception from any element propagates. This renders each
element, left to right, before the join. -/
def renderAll : List Where.Comparison → Except PyError (List String)
  | [] => .ok []
  | c :: rest => do
    let s ← c.sql
    let others ← renderAll rest
    return s :: others

/-- `Where` dataclass (dsorm.py:168-170): holds the raw `where` argument,
a dict or `None`. -/
structure Where where
  where_ : Option (List (String × PyVal))
deriving DecidableEq

/-- The `clause_list` loop of `Where.sql` (dsorm.py:211-214): one
`Comparison(column=k, target=v)` per entry whose value is a string; other
entries are skipped. Keys are strings (dsorm dataclasses are unhashable, so
a `Column` cannot be a dict key). -/
def Where.clauseList (d : List (String × PyVal)) : List Where.Comparison :=
  (d.filter (fun kv => kv.2.isStr)).map (fun kv => ⟨Frag.str kv.1, kv.2, "="⟩)

/-- `Where.sql` (dsorm.py:208-218): empty / `None` mapping renders `""`;
otherwise `f"WHERE {joinmap(clause_list, ds_sql, seperator=LINE_AND_SEPERATOR)}"`. -/
def Where.sql (w : Where) : Except PyError String :=
  match w.where_ with
  | none => .ok ""
  | some d =>
    if d.isEmpty then .ok ""
    else do
      let rendered ← renderAll (Where.clauseList d)
      return "WHERE " ++ String.intercalate LINE_AND_SEPERATOR rendered

/-- The `where` argument accepted by `ds_where` (dsorm.py:113-117): an
existing `Where`, a dict, or `None`. -/
inductive WhereArg where
  | obj (w : Where)
  | dict (d : List (String × PyVal))
  | none_
deriving DecidableEq

/-- `ds_where` (dsorm.py:113-117): a `Where` passes through; anything else
(a dict or `None`) is wrapped as `Where(where)`. -/
def ds_where : WhereArg → Where
  | .obj w => w
  | .dict d => ⟨some d⟩
  | .none_ => ⟨none⟩

/-- `ForeignKey` dataclass (dsorm.py:288-292): `column` may be a single
fragment or a list (its annotation is `Union[List, SQLFragment]`);
`reference_column` is a list in practice. No validation happens at
construction. -/
structure ForeignKey where
  column : Fragments
  reference_table : Table
  reference_column : Fragments
deriving DecidableEq

/-- Number of columns a `Fragments` value denotes: one for a single
fragment, the length for a list. -/
def Fragments.fragCount : Fragments → Nat
  | .frag _ => 1
  | .flist fs => fs.length

/-- `ForeignKey.sql` (dsorm.py:298-299). -/
def ForeignKey.sql (fk : ForeignKey) : String :=
  "FOREIGN KEY (" ++ (joinmap fk.column (fun o => ds_name o false) ", " ++
    (") REFERENCES " ++ (ds_name (.tbl fk.reference_table) false ++
    ("(" ++ (joinmap fk.reference_column (fun o => ds_name o false) ", " ++ ")")))))

/-- `Table.fkey` (dsorm.py:323-329): `on_column` defaults to the table's
primary-key column list; the referenced columns are always that list. -/
def Table.fkey (t : Table) (on_column : Option Fragments) : ForeignKey :=
  let primary : Fragments := .flist ((Table.pkey t).map Frag.col)
  match on_column with
  | none => ⟨primary, t, primary⟩
  | some oc => ⟨oc, t, primary⟩

/-- `columns if columns else self.column` in `Table.select`
(dsorm.py:342): `None` and the empty list are falsy, so both fall back to
the table's own columns. -/
def Table.selectCols (t : Table) (columns : Option (List Frag)) : List Frag :=
  match columns with
  | some cs => if cs.isEmpty then t.column.map Frag.col else cs
  | none => t.column.map Frag.col

/-- `Table.select` (dsorm.py:341-342):
`f"SELECT {joinmap(columns if columns else self.column, ds_qname)} \n FROM {self.name} \n {ds_sql(ds_where(where))}"`. -/
def Table.select (t : Table) (where_ : WhereArg) (columns : Option (List Frag)) :
    Except PyError String := do
  let wsql ← (ds_where where_).sql
  return "SELECT " ++ (joinmap (.flist (t.selectCols columns)) ds_qname ", " ++
    (" \n FROM " ++ (pyOptStr t.name ++ (" \n " ++ wsql))))

/-- `Table.insert` (dsorm.py:344-349): parameterized text paired with the
unchanged data mapping. `k = data.keys()` in insertion order. -/
def Table.insert (t : Table) (data : List (String × PyVal)) (replace : Bool) :
    String × List (String × PyVal) :=
  let k := data.map (fun kv => kv.1)
  ((if replace then "REPLACE" else "INSERT") ++
     (" INTO " ++ (pyOptStr t.name ++ (" (" ++
       (joinmap (.flist (k.map Frag.str)) (fun o => ds_name o false) ", " ++
       (") VALUES(" ++ (joinmap (.flist (k.map Frag.str)) (fun o => ":" ++ pyStrFrag o) ", " ++
       ");")))))),
   data)

/-- `Table.delete` (dsorm.py:351-355): rendered text paired with the raw
`where` argument. -/
def Table.delete (t : Table) (where_ : WhereArg) :
    Except PyError (String × WhereArg) := do
  let wsql ← (ds_where where_).sql
  return ("DELETE FROM " ++ (pyOptStr t.name ++ (" \n " ++ wsql)), where_)

/-- The clause markers of the five statement-kind enumerations
(dsorm.py:17-53), one constructor per enum member. -/
inductive ClauseId where
  | createCreate | createColumn | createConstraint
  | selCte | selSelect | selFrom | selJoin | selWhere
  | selGroup | selHaving | selOrder | selLimit | selOffset
  | delFrom | delWhere
  | insCte | insInsert | insColumns | insFrom | insValues
  | updCte | updUpdate | updSet | updWhere
deriving DecidableEq

/-- `CreateTableType` member order (dsorm.py:17-20). Python iterates an
Enum class in definition order. -/
def CreateTableType : List ClauseId :=
  [.createCreate, .createColumn, .createConstraint]

/-- `SelectType` member order (dsorm.py:23-33). -/
def SelectType : List ClauseId :=
  [.selCte, .selSelect, .selFrom, .selJoin, .selWhere,
   .selGroup, .selHaving, .selOrder, .selLimit, .selOffset]

/-- `DeleteType` member order (dsorm.py:36-38). -/
def DeleteType : List ClauseId :=
  [.delFrom, .delWhere]

/-- `InsertType` member order (dsorm.py:41-46). -/
def InsertType : List ClauseId :=
  [.insCte, .insInsert, .insColumns, .insFrom, .insValues]

/-- `UpdateType` member order (dsorm.py:49-53). -/
def UpdateType : List ClauseId :=
  [.updCte, .updUpdate, .updSet, .updWhere]

/-- Python dict lookup on an association list: first matching key. -/
def dictLookup {α β : Type} [DecidableEq α] : List (α × β) → α → Option β
  | [], _ => none
  | kv :: rest, k => if kv.1 = k then some kv.2 else dictLookup rest k

/-- `Statement` (dsorm.py:221-228): a statement kind and a mapping from
clause marker to already-rendered content (typed `Dict[Enum, str]`; the
`values`/`_db` fields do not affect rendering and are omitted). -/
structure Statement where
  statement_type : List ClauseId
  components : List (ClauseId × String)
deriving DecidableEq

/-- `Statement.sql` (dsorm.py:230-238):
`"\n".join([ds_sql(self.components[clause]) for clause in self.statement_type if clause in self.components])`;
`ds_sql` is the identity on the string components. -/
def Statement.sql (st : Statement) : String :=
  String.intercalate "\n" (st.statement_type.filterMap (fun clause => dictLookup st.components clause))

/-- Argument to `Database.table`: a `Table` object or a plain name. -/
inductive TableOrName where
  | tbl (t : Table)
  | name (s : String)
deriving DecidableEq

/-- `Database.table` (dsorm.py:367-372): a `Table` is returned as-is; a
name is looked up in `information_schema["Table"]`, whose state is passed
here explicitly; a miss raises `KeyError`. -/
def Database.table (information_schema_tables : List (String × Table)) :
    TableOrName → Except PyError Table
  | .tbl t => .ok t
  | .name s =>
    match dictLookup information_schema_tables s with
    | some t => .ok t
    | none => .error .keyError

/-- The spec scenario's table:
`Table(name="users", column=[Column("id", "INTEGER", pkey=True), Column("name", "TEXT", nullable=False)])`. -/
def usersTable : Table :=
  Table.make
    [⟨"id", "INTEGER", false, true, true, none⟩,
     ⟨"name", "TEXT", false, false, false, none⟩]
    (some "users") [] "Main"

/-- A `ForeignKey` with two local columns but one referenced column; the
source constructs it without complaint. -/
def mismatchedFkey : ForeignKey :=
  ⟨.flist [.str "a", .str "b"], usersTable, .flist [.str "id"]⟩

/-! ## Helper lemmas -/

/-- Building `clause_list` from a mapping whose values are all strings
keeps every entry as an equality comparison. -/
theorem clauseList_map_str (d : List (String × String)) :
    Where.clauseList (d.map (fun kv => (kv.1, PyVal.str kv.2))) =
      d.map (fun kv => (⟨Frag.str kv.1, PyVal.str kv.2, "="⟩ : Where.Comparison)) := by
  induction d with
  | nil => rfl
  | cons a l ih =>
    simp only [List.map_cons, Where.clauseList, List.filter_cons, PyVal.isStr] at ih ⊢
    simpa using ih

/-- Rendering a list of string-target equality comparisons never raises and
produces `key = 'value'` texts. -/
theorem renderAll_str_comps (d : List (String × String)) :
    renderAll (d.map (fun kv => (⟨Frag.str kv.1, PyVal.str kv.2, "="⟩ : Where.Comparison))) =
      .ok (d.map (fun kv => kv.1 ++ (" = '" ++ (kv.2 ++ "'")))) := by
  induction d with
  | nil => rfl
  | cons a l ih =>
    simp only [List.map_cons, renderAll, Where.Comparison.sql, ds_quote, ih]
    rfl

/-- `ds_name` (unqualified) on raw strings is the identity. -/
theorem map_frag_str_ds_name (k : List String) :
    (k.map Frag.str).map (fun o => ds_name o false) = k := by
  induction k with
  | nil => rfl
  | cons a l ih => simp only [List.map_cons]; rw [ih]; exact rfl

/-- The placeholder lambda of `Table.insert` prefixes each key with `:`. -/
theorem map_frag_str_placeholder (k : List String) :
    (k.map Frag.str).map (fun o => ":" ++ pyStrFrag o) = k.map (fun s => ":" ++ s) := by
  induction k with
  | nil => rfl
  | cons a l ih => simp only [List.map_cons]; rw [ih]; exact rfl

/-- `Statement.sql` over empty components emits nothing, whatever the kind. -/
theorem filterMap_dictLookup_nil (ks : List ClauseId) :
    ks.filterMap (fun clause => dictLookup ([] : List (ClauseId × String)) clause) = [] := by
  induction ks with
  | nil => rfl
  | cons a l ih => simp [dictLookup, ih]

/-! ## Claim theorems -/

/-- C1 (counterexample): the one-entry mapping `{"id": 1}` — an integer
value — renders zero comparisons and yields the bare clause `"WHERE "`,
so the claim "exactly N comparisons, never a bare WHERE keyword" fails at
N = 1. -/
theorem where_sql_int_value_bare_where :
    Where.clauseList [("id", PyVal.int 1)] = [] ∧
    Where.sql ⟨some [("id", PyVal.int 1)]⟩ = .ok "WHERE " ∧
    ("WHERE " : String) ≠ "" :=
  ⟨rfl, rfl, by decide⟩

/-- C1 (amended): for a non-empty mapping all of whose values are strings,
`Where.sql` renders `WHERE ` followed by exactly one `key = 'value'`
comparison per entry, conjoined by the line-broken `AND` separator; the
empty mapping and `None` render to the empty string. -/
theorem where_sql_all_string_values (d : List (String × String)) (hne : d ≠ []) :
    Where.sql ⟨some (d.map (fun kv => (kv.1, PyVal.str kv.2)))⟩ =
      .ok ("WHERE " ++ String.intercalate LINE_AND_SEPERATOR
        (d.map (fun kv => kv.1 ++ (" = '" ++ (kv.2 ++ "'"))))) ∧
    (Where.clauseList (d.map (fun kv => (kv.1, PyVal.str kv.2)))).length = d.length ∧
    Where.sql ⟨some []⟩ = .ok "" ∧
    Where.sql ⟨none⟩ = .ok "" := by
  have hie : (d.map (fun kv => (kv.1, PyVal.str kv.2))).isEmpty = false := by
    cases d with
    | nil => exact absurd rfl hne
    | cons a l => rfl
  refine ⟨?_, ?_, rfl, rfl⟩
  · simp only [Where.sql, hie, Bool.false_eq_true, if_false,
      clauseList_map_str, renderAll_str_comps]
    rfl
  · rw [clauseList_map_str, List.length_map]

/-- C1 (witness): the two-entry all-string mapping renders two comparisons. -/
theorem where_sql_all_string_values_w :
    Where.sql ⟨some [("a", PyVal.str "x"), ("b", PyVal.str "y")]⟩ =
      .ok "WHERE a = 'x'\n\tAND b = 'y'" ∧
    (Where.clauseList [("a", PyVal.str "x"), ("b", PyVal.str "y")]).length = 2 ∧
    Where.sql ⟨some []⟩ = .ok "" ∧
    Where.sql ⟨none⟩ = .ok "" :=
  where_sql_all_string_values [("a", "x"), ("b", "y")] (by decide)

/-- C2: for each of the five declared statement kinds, `Statement.sql`
depends only on which clauses the component mapping contains (not on its
insertion order), renders empty components to empty text, and walks the
kind's declared clause order, emitting exactly the present clauses joined
by line breaks. -/
theorem statement_sql_declared_order (kind : List ClauseId)
    (_hk : kind ∈ [CreateTableType, SelectType, DeleteType, InsertType, UpdateType])
    (c₁ c₂ : List (ClauseId × String))
    (h : ∀ clause, dictLookup c₁ clause = dictLookup c₂ clause) :
    Statement.sql ⟨kind, c₁⟩ = Statement.sql ⟨kind, c₂⟩ ∧
    Statement.sql ⟨kind, []⟩ = "" ∧
    Statement.sql ⟨kind, c₁⟩ =
      String.intercalate "\n" (kind.filterMap (dictLookup c₁)) := by
  refine ⟨?_, ?_, rfl⟩
  · have hfun : dictLookup c₁ = dictLookup c₂ := funext h
    simp only [Statement.sql, hfun]
  · simp only [Statement.sql, filterMap_dictLookup_nil]
    rfl

/-- C2 (witness): a SELECT statement whose components were inserted in
reversed order renders identically, and in declared clause order. -/
theorem statement_sql_declared_order_w :
    Statement.sql ⟨SelectType, [(ClauseId.selWhere, "WHERE x = 1"),
        (ClauseId.selFrom, "FROM t"), (ClauseId.selSelect, "SELECT *")]⟩ =
      Statement.sql ⟨SelectType, [(ClauseId.selSelect, "SELECT *"),
        (ClauseId.selFrom, "FROM t"), (ClauseId.selWhere, "WHERE x = 1")]⟩ ∧
    Statement.sql ⟨SelectType, []⟩ = "" ∧
    Statement.sql ⟨SelectType, [(ClauseId.selWhere, "WHERE x = 1"),
        (ClauseId.selFrom, "FROM t"), (ClauseId.selSelect, "SELECT *")]⟩ =
      String.intercalate "\n" (SelectType.filterMap
        (dictLookup [(ClauseId.selWhere, "WHERE x = 1"),
          (ClauseId.selFrom, "FROM t"), (ClauseId.selSelect, "SELECT *")])) :=
  statement_sql_declared_order SelectType (by decide)
    [(ClauseId.selWhere, "WHERE x = 1"), (ClauseId.selFrom, "FROM t"),
      (ClauseId.selSelect, "SELECT *")]
    [(ClauseId.selSelect, "SELECT *"), (ClauseId.selFrom, "FROM t"),
      (ClauseId.selWhere, "WHERE x = 1")]
    (by intro clause; cases clause <;> rfl)

/-- C3 (counterexample): quoting a boolean fails with the dict-lookup
`KeyError`, not with a typed `UnsupportedLiteralKind` error (no such
exception class exists in the source). -/
theorem ds_quote_bool_keyerror_not_typed :
    ds_quote (.bool true) = .error .keyError ∧
    ds_quote (.bool true) ≠ .error .unsupportedLiteralKind :=
  ⟨rfl, fun h => PyError.noConfusion (Except.error.inj h)⟩

/-- C3 (amended): `ds_quote` wraps strings in single quotes, passes
integers and floats through as their decimal text, and for a value of any
other kind (a boolean) fails with the `KeyError` of the cast-dict miss —
never silently stringifying it. -/
theorem ds_quote_literal_kinds (s : String) (n : Int) (ftext : String) (b : Bool) :
    ds_quote (.str s) = .ok ("'" ++ (s ++ "'")) ∧
    ds_quote (.int n) = .ok (toString n) ∧
    ds_quote (.float ftext) = .ok ftext ∧
    ds_quote (.bool b) = .error .keyError ∧
    ∀ out : String, ds_quote (.bool b) ≠ .ok out :=
  ⟨rfl, rfl, rfl, rfl, fun _ h => Except.noConfusion h⟩

/-- C4: `Table.insert` produces
`INSERT INTO <name> (<keys>) VALUES(:<key>, ...);` (`REPLACE` when
`replace` is true), with the keys in the mapping's order, one named
placeholder per key, paired with the original data mapping unchanged. -/
theorem table_insert_text_and_params (t : Table) (data : List (String × PyVal))
    (replace : Bool) :
    (t.insert data replace).1 =
      (if replace then "REPLACE" else "INSERT") ++
        (" INTO " ++ (pyOptStr t.name ++ (" (" ++
          (String.intercalate ", " (data.map (fun kv => kv.1)) ++
          (") VALUES(" ++
          (String.intercalate ", " ((data.map (fun kv => kv.1)).map (fun key => ":" ++ key)) ++
          ");")))))) ∧
    (t.insert data replace).2 = data := by
  constructor
  · simp only [Table.insert, joinmap, map_frag_str_ds_name, map_frag_str_placeholder]
  · rfl

/-- C5 (counterexample): a `ForeignKey` whose local side has two columns
but whose referenced side has one is constructed without any error and
renders to SQL text, refuting both the count invariant and the claimed
`MalformedForeignKey` failure. -/
theorem foreign_key_mismatch_accepted :
    mismatchedFkey.column.fragCount = 2 ∧
    mismatchedFkey.reference_column.fragCount = 1 ∧
    mismatchedFkey.column.fragCount ≠ mismatchedFkey.reference_column.fragCount ∧
    mismatchedFkey.sql = "FOREIGN KEY (a, b) REFERENCES users(id)" :=
  ⟨rfl, rfl, by decide, rfl⟩

/-- C5 (amended): `ForeignKey` construction performs no column-count
validation; the equal-count invariant does hold for the foreign keys
`Table.fkey` manufactures with its default argument, where both sides are
the table's primary-key column list. -/
theorem table_fkey_default_counts_match (t : Table) :
    (t.fkey none).column.fragCount = (t.fkey none).reference_column.fragCount ∧
    (t.fkey none).column = .flist ((Table.pkey t).map Frag.col) ∧
    (t.fkey none).reference_column = .flist ((Table.pkey t).map Frag.col) :=
  ⟨rfl, rfl, rfl⟩

/-- C6 (counterexample): resolving an unregistered name fails with the
dict-lookup `KeyError`, not with a typed `UnknownTable` error (no such
exception class exists in the source). -/
theorem database_table_miss_keyerror :
    Database.table [] (.name "users") = .error .keyError ∧
    Database.table [] (.name "users") ≠ .error .unknownTable :=
  ⟨rfl, fun h => PyError.noConfusion (Except.error.inj h)⟩

/-- C6 (amended): `Database.table` returns a `Table` argument as-is,
returns the registered table for a name present in the directory, and for
an absent name fails with the `KeyError` of the directory lookup. -/
theorem database_table_resolution (info : List (String × Table)) (t : Table)
    (s₁ : String) (h₁ : dictLookup info s₁ = some t)
    (s₂ : String) (h₂ : dictLookup info s₂ = none) :
    Database.table info (.tbl t) = .ok t ∧
    Database.table info (.name s₁) = .ok t ∧
    Database.table info (.name s₂) = .error .keyError := by
  refine ⟨rfl, ?_, ?_⟩
  · simp only [Database.table, h₁]
  · simp only [Database.table, h₂]

/-- C6 (witness): with `users` registered, the object passes through, the
name resolves, and a missing name raises `KeyError`. -/
theorem database_table_resolution_w :
    Database.table [("users", usersTable)] (.tbl usersTable) = .ok usersTable ∧
    Database.table [("users", usersTable)] (.name "users") = .ok usersTable ∧
    Database.table [("users", usersTable)] (.name "ghosts") = .error .keyError :=
  database_table_resolution [("users", usersTable)] usersTable
    "users" rfl "ghosts" rfl

/-- C7 (counterexample): on the spec scenario the rendered WHERE comparison
uses the bare mapping key, so the emitted text differs from the claimed
text with the table-qualified `users.name`. -/
theorem users_select_where_unqualified_cex :
    usersTable.select (.dict [("name", PyVal.str "alice")]) none =
      .ok "SELECT users.id, users.name \n FROM users \n WHERE name = 'alice'" ∧
    ("SELECT users.id, users.name \n FROM users \n WHERE name = 'alice'" : String) ≠
      "SELECT users.id, users.name \n FROM users \n WHERE users.name = 'alice'" :=
  ⟨rfl, by decide⟩

/-- C7 (amended): the scenario's select yields
`SELECT users.id, users.name \n FROM users \n WHERE name = 'alice'`: the
selected columns are table-qualified, FROM names the table, and the WHERE
comparison equates the bare mapping key (unqualified — the key is a plain
string, not a `Column`) with the single-quoted literal. -/
theorem users_select_where_unqualified :
    usersTable.select (.dict [("name", PyVal.str "alice")]) none =
      .ok "SELECT users.id, users.name \n FROM users \n WHERE name = 'alice'" :=
  rfl

/-- C8: a mapping entry whose value is not a string produces no comparison
(`clause_list` keeps exactly the string-valued entries), and a non-empty
mapping with no string values renders to the bare text `"WHERE "`. -/
theorem where_sql_drops_nonstring_values (d : List (String × PyVal))
    (hne : d ≠ []) (h : ∀ kv ∈ d, kv.2.isStr = false)
    (d' : List (String × PyVal)) :
    Where.sql ⟨some d⟩ = .ok "WHERE " ∧
    Where.clauseList d = [] ∧
    (Where.clauseList d').length = (d'.filter (fun kv => kv.2.isStr)).length := by
  have hie : d.isEmpty = false := by
    cases d with
    | nil => exact absurd rfl hne
    | cons a l => rfl
  have hcl : Where.clauseList d = [] := by
    unfold Where.clauseList
    rw [List.filter_eq_nil_iff.mpr (by simpa using h)]
    rfl
  refine ⟨?_, hcl, ?_⟩
  · simp only [Where.sql, hie, Bool.false_eq_true, if_false, hcl, renderAll]
    rfl
  · rw [Where.clauseList, List.length_map]

/-- C8 (witness): `{"id": 1, "flag": True}` renders to `"WHERE "` with no
comparisons, and a mixed mapping keeps only its string-valued entry. -/
theorem where_sql_drops_nonstring_values_w :
    Where.sql ⟨some [("id", PyVal.int 1), ("flag", PyVal.bool true)]⟩ = .ok "WHERE " ∧
    Where.clauseList [("id", PyVal.int 1), ("flag", PyVal.bool true)] = [] ∧
    (Where.clauseList [("a", PyVal.str "x"), ("b", PyVal.int 2)]).length =
      ([("a", PyVal.str "x"), ("b", PyVal.int 2)].filter (fun kv => kv.2.isStr)).length :=
  where_sql_drops_nonstring_values
    [("id", PyVal.int 1), ("flag", PyVal.bool true)] (by decide) (by decide)
    [("a", PyVal.str "x"), ("b", PyVal.int 2)]

/-- C9: `ds_where` wraps `None` into a `Where` that renders to the empty
string, so `select` and `delete` with no predicate succeed and append no
WHERE clause; on the scenario table the emitted text contains no `WHERE`
keyword at all. -/
theorem select_delete_none_where_empty (t : Table) (cols : Option (List Frag)) :
    ds_where .none_ = (⟨none⟩ : Where) ∧
    Where.sql (ds_where .none_) = .ok "" ∧
    t.select .none_ cols =
      .ok ("SELECT " ++ (joinmap (.flist (t.selectCols cols)) ds_qname ", " ++
        (" \n FROM " ++ (pyOptStr t.name ++ " \n ")))) ∧
    t.delete .none_ = .ok ("DELETE FROM " ++ (pyOptStr t.name ++ " \n "), WhereArg.none_) ∧
    usersTable.select .none_ none = .ok "SELECT users.id, users.name \n FROM users \n " ∧
    ¬ List.IsInfix "WHERE".toList "SELECT users.id, users.name \n FROM users \n ".toList :=
  ⟨rfl, rfl, rfl, rfl, rfl, by decide⟩

/-- C10: `joinmap` on a single string applies the per-item function to the
whole string (the `not isinstance(o, str)` guard exempts strings from the
iterable branch); only lists are rendered element-wise and joined — the
character-by-character join of `"ab"` would give `"a, b"`, not the
`"ab"` that `joinmap` returns. -/
theorem joinmap_single_string_whole (s : String) (f : Frag → String)
    (seperator : String) :
    joinmap (.frag (.str s)) f seperator = f (.str s) ∧
    (∀ fs : List Frag, joinmap (.flist fs) f seperator =
      String.intercalate seperator (fs.map f)) ∧
    joinmap (.frag (.str "ab")) (fun o => ds_name o false) ", " = "ab" ∧
    String.intercalate ", "
      ("ab".toList.map (fun c => ds_name (.str (String.singleton c)) false)) = "a, b" ∧
    ("ab" : String) ≠ "a, b" :=
  ⟨rfl, fun _ => rfl, rfl, by decide, by decide⟩

end Dsorm
